import Mathlib

set_option linter.unusedVariables false

/- Shallow embedding of the IMPALA Monobeast actor/learner engine of
   continual_rl (src/continual_rl/policies/impala/torchbeast/monobeast.py).
   Tensors are abstracted to scalar values (`Nat` for opaque payloads, `ℚ`
   for the numeric quantities entering the loss); queues are lists with
   `get` at the head and `put` at the tail; the concurrent parts are
   modelled as labelled transition relations whose steps are the atomic
   actions of the source. -/

/-! ### Monobeast.setup configuration validation (monobeast.py:134-139) -/

/-- Resolution of the `num_buffers` default (monobeast.py:134-135): when
`model_flags.num_buffers` is `None` it is set to
`max(2 * num_actors, batch_size)`. -/
def resolveNumBuffers (num_buffers : Option Nat) (num_actors batch_size : Nat) : Nat :=
  num_buffers.getD (max (2 * num_actors) batch_size)

/-- Validation in `Monobeast.setup` (monobeast.py:136-139): after resolving
the default, `ValueError` is raised when `num_actors >= num_buffers` and
then when `num_buffers < batch_size`; otherwise setup proceeds with the
resolved buffer count.  This runs in `__init__` before any buffers, actor
processes or learner threads are created. -/
def setupCheck (num_buffers : Option Nat) (num_actors batch_size : Nat) : Except String Nat :=
  let nb := resolveNumBuffers num_buffers num_actors batch_size
  if num_actors ≥ nb then Except.error "num_buffers should be larger than num_actors"
  else if nb < batch_size then Except.error "num_buffers should be larger than batch_size"
  else Except.ok nb

/-- Discriminator for `Except` results, used to state which configurations
are accepted. -/
def exOk {α β : Type} : Except α β → Bool
  | Except.ok _ => true
  | Except.error _ => false

/-! ### Reward clipping in Monobeast.compute_loss (monobeast.py:332-336) -/

/-- Reward-clipping branch of `Monobeast.compute_loss` (monobeast.py:332-336):
`"abs_one"` takes `torch.clamp(rewards, -1, 1)` (pointwise
`min (max r (-1)) 1`), `"none"` passes the rewards through, and any other
value of `reward_clipping` leaves the local `clipped_rewards` unbound, so
the read at monobeast.py:345 raises `NameError` instead of producing a
loss. -/
def clippedRewardsOf (reward_clipping : String) (rewards : List ℚ) : Except String (List ℚ) :=
  if reward_clipping = "abs_one" then Except.ok (rewards.map (fun r => min (max r (-1)) 1))
  else if reward_clipping = "none" then Except.ok rewards
  else Except.error "NameError: clipped_rewards is not defined"

/-! ### Episode telemetry sink (monobeast.py:79, 250-268, 716-725)

`self._videos_to_log = py_mp.Manager().Queue(maxsize=1)` holds at most one
pending episode snapshot, modelled as an `Option`.  Snapshots are abstract
frame sequences (`List Nat`). -/

/-- Publish path run by actor 0 on episode completion (monobeast.py:252-266):
first `get(timeout=1)` discards a pending unread snapshot (a `queue.Empty`
timeout is passed over), then `put` stores the new episode's frames.  Since
actor 0 is the only publisher and the consumer only removes items, the slot
is empty when the `put` runs, so the `put` does not block. -/
def publishVideo (sink : Option (List Nat)) (frames : List Nat) : Option (List Nat) :=
  match sink with
  | some _ => some frames
  | none => some frames

/-- Consumer side in `Monobeast.train` (monobeast.py:716-719):
`videos_to_log.get(block=False)` returns the pending snapshot leaving the
queue empty, or finds nothing. -/
def consumeVideo (sink : Option (List Nat)) : Option (List Nat) × Option (List Nat) :=
  (sink, none)

/-! ### Discounts and the V-trace target (monobeast.py:338-348, spec 4.4) -/

/-- Discount vector built in `Monobeast.compute_loss` (monobeast.py:338):
`discounts = (~batch["done"]).float() * model_flags.discounting`, i.e. the
boolean complement cast to 0/1 and scaled. -/
def discountsOf (done : List Bool) (discounting : ℚ) : List ℚ :=
  done.map (fun d => (if d then (0 : ℚ) else 1) * discounting)

/-- Per-timestep inputs of the V-trace recursion: importance ratio, trace
coefficient, discount, reward and the value estimate V(x_t). -/
structure VStep where
  rho : ℚ
  c : ℚ
  gamma : ℚ
  r : ℚ
  V : ℚ
deriving DecidableEq

/-- Value estimate of the next timestep, `V(x_{t+1})`, falling back to the
bootstrap value after the last step. -/
def nextV (rest : List VStep) (boot : ℚ) : ℚ :=
  match rest with
  | [] => boot
  | s2 :: _ => s2.V

/-- Modelled from the spec: the V-trace targets `vs_t` (spec section 4.4).
The module `continual_rl/policies/impala/torchbeast/core/vtrace.py` that
`Monobeast.compute_loss` calls (monobeast.py:340-348) is not under src, so
the recursion is taken from the spec, in the form the spec itself names
"the standard V-trace recursive target":
`vs_T = bootstrap`, and backwards in time
`vs_t = V(x_t) + delta_t + gamma_t * c_t * (vs_(t+1) - V(x_(t+1)))` with
`delta_t = rho_t * (r_t + gamma_t * V(x_(t+1)) - V(x_t))`.
(The spec's displayed delta line writes `vs_(t+1)` in place of
`V(x_(t+1))`; under that reading the spec's own on-policy degeneracy
property, section 8, would be false, and the spec glosses the display as
equivalent to the standard target, so the standard form is used.)
`vsList steps boot` returns `[vs_0, ..., vs_(T-1)]`. -/
def vsList : List VStep → ℚ → List ℚ
  | [], _ => []
  | s :: rest, boot =>
    let tailVs := vsList rest boot
    let vsNext := tailVs.headD boot
    let vN := nextV rest boot
    (s.V + s.rho * (s.r + s.gamma * vN - s.V) + s.gamma * s.c * (vsNext - vN)) :: tailVs

/-- Standard n-step bootstrapped return over the remaining horizon:
`ret_T = bootstrap`, `ret_t = r_t + gamma_t * ret_(t+1)`. -/
def nstepReturn : List VStep → ℚ → ℚ
  | [], boot => boot
  | s :: rest, boot => s.r + s.gamma * nstepReturn rest boot

/-- The n-step bootstrapped returns of every suffix,
`[ret_0, ..., ret_(T-1)]`. -/
def nstepList : List VStep → ℚ → List ℚ
  | [], _ => []
  | s :: rest, boot => nstepReturn (s :: rest) boot :: nstepList rest boot

/-- Modelled from the spec: default clipping threshold rho-bar of the
missing vtrace module; spec section 4.4 states "typically c-bar = rho-bar
= 1" and `vtrace.from_logits` is called without overriding thresholds
(monobeast.py:340-348). -/
def rhoBarDefault : ℚ := 1

/-- Modelled from the spec: default clipping threshold c-bar, see
`rhoBarDefault`. -/
def cBarDefault : ℚ := 1

/-- Modelled from the spec: importance ratio
`rho_t = pi_target(a_t|x_t) / pi_behavior(a_t|x_t)` clipped to rho-bar
(spec section 4.4); the computation lives in the missing vtrace module. -/
def importanceRho (piBehavior piTarget : ℚ) : ℚ :=
  min rhoBarDefault (piTarget / piBehavior)

/-- Modelled from the spec: trace coefficient `c_t = min(c-bar, rho_t)`
(spec section 4.4). -/
def traceC (rho : ℚ) : ℚ := min cBarDefault rho

/-- One timestep of a batch as seen by the V-trace correction: the
behavior-policy and target-policy probabilities of the taken action,
the discount, the reward and the value estimate. -/
structure PolicyRow where
  pb : ℚ
  pt : ℚ
  gamma : ℚ
  r : ℚ
  V : ℚ
deriving DecidableEq

/-- Modelled from the spec: assembly of the per-timestep V-trace inputs
from policy outputs (the `from_logits` entry point of the missing vtrace
module): each timestep's rho is the clipped importance ratio and its c the
clipped trace coefficient. -/
def mkSteps (rows : List PolicyRow) : List VStep :=
  rows.map (fun row =>
    { rho := importanceRho row.pb row.pt
      c := traceC (importanceRho row.pb row.pt)
      gamma := row.gamma
      r := row.r
      V := row.V })

/-! ### The buffer-slot index pool of Monobeast.train

The pool is two Manager queues of slot indices (monobeast.py:589-590).
Indices leave `free` when an actor takes one (monobeast.py:220) and come
back via `full` when it publishes (monobeast.py:274); a learner drains
`batch_size` indices from `full` under the batch lock (monobeast.py:299)
and puts them back to `free` (monobeast.py:309-310).  At the yield barrier
the orchestrator empties both queues (monobeast.py:752-764) and, after the
yield, puts every index `0..num_buffers-1` into `free`
(monobeast.py:782-783) — the same statement that populated the queue
initially (monobeast.py:674-675). -/

/-- State of the index pool: the two queues plus the indices currently
checked out by an actor mid-rollout (`actorHeld`) or by a learner between
the dequeue and the free-queue put inside `get_batch` (`learnerHeld`). -/
structure PoolState where
  freeQ : List Nat
  fullQ : List Nat
  actorHeld : List Nat
  learnerHeld : List Nat
deriving DecidableEq

/-- Total number of slot indices accounted for by the pool state. -/
def poolCount (s : PoolState) : Nat :=
  s.freeQ.length + s.fullQ.length + s.actorHeld.length + s.learnerHeld.length

/-- Pool state right after the initial population of the free queue
(monobeast.py:674-675): every index in `free`, nothing held. -/
def poolInit (num_buffers : Nat) : PoolState :=
  { freeQ := List.range num_buffers, fullQ := [], actorHeld := [], learnerHeld := [] }

/-- Effect of the orchestrator's pause-time drain-and-refill
(monobeast.py:752-764 and 782-783): both queues are emptied and then
`free` receives every index `0..num_buffers-1`; indices held by suspended
actors or by a learner are untouched. -/
def drainRefill (num_buffers : Nat) (s : PoolState) : PoolState :=
  { s with freeQ := List.range num_buffers, fullQ := [] }

/-- The four queue operations of the steady-state pipeline, each atomic at
the queue level.  `batchRelease` returns the drained indices of a
`get_batch` call to the free queue (monobeast.py:309-310). -/
inductive PoolOp : PoolState → PoolState → Prop
  | actorAcquire (s : PoolState) (i : Nat) (rest : List Nat) (h : s.freeQ = i :: rest) :
      PoolOp s { s with freeQ := rest, actorHeld := s.actorHeld ++ [i] }
  | actorPublish (s : PoolState) (i : Nat) (h : i ∈ s.actorHeld) :
      PoolOp s { s with actorHeld := s.actorHeld.erase i, fullQ := s.fullQ ++ [i] }
  | batchDrain (s : PoolState) (n : Nat) (h : n ≤ s.fullQ.length) :
      PoolOp s { s with fullQ := s.fullQ.drop n, learnerHeld := s.learnerHeld ++ s.fullQ.take n }
  | batchRelease (s : PoolState) :
      PoolOp s { s with learnerHeld := [], freeQ := s.freeQ ++ s.learnerHeld }

/-- All pool transitions reachable during training: the steady-state queue
operations plus the orchestrator's pause-time drain-and-refill. -/
inductive PoolStep (num_buffers : Nat) : PoolState → PoolState → Prop
  | op (s t : PoolState) (h : PoolOp s t) : PoolStep num_buffers s t
  | pause (s : PoolState) : PoolStep num_buffers s (drainRefill num_buffers s)

/-- Intermediate state of the C1 counterexample: an actor has taken slot 0
from the freshly populated two-slot pool. -/
def poolCexMid : PoolState :=
  { freeQ := [1], fullQ := [], actorHeld := [0], learnerHeld := [] }

/-- Final state of the C1 counterexample: the orchestrator has drained and
refilled the queues while the actor still holds slot 0, which now also sits
in the free queue. -/
def poolCexEnd : PoolState :=
  { freeQ := [0, 1], fullQ := [], actorHeld := [0], learnerHeld := [] }

/-! ### Checkpoint save/load (monobeast.py:506-557)

Model and optimizer state dicts are opaque payloads (`Nat`).  The save
directory holds the `model.tar` blob, its `model_bak.tar` backup and the
`impala_metadata.json` record. -/

/-- Content of the `model.tar` blob written by `Monobeast.save`
(monobeast.py:519-526): the `scheduler_state_dict` key is present only
when a scheduler object exists at save time (monobeast.py:523-524). -/
structure ImpalaCheckpoint where
  model_state_dict : Nat
  optimizer_state_dict : Nat
  scheduler_state_dict : Option Nat
deriving DecidableEq

/-- Content of `impala_metadata.json` (monobeast.py:529-532). -/
structure ImpalaMetadata where
  last_timestep_returned : Nat
deriving DecidableEq

/-- The files of a checkpoint directory; `none` means the file does not
exist. -/
structure SaveDir where
  modelTar : Option ImpalaCheckpoint
  modelBakTar : Option ImpalaCheckpoint
  metadataJson : Option ImpalaMetadata
deriving DecidableEq

/-- A directory with no checkpoint files. -/
def emptyDir : SaveDir := { modelTar := none, modelBakTar := none, metadataJson := none }

/-- The persistent state of a `Monobeast` instance that `save`/`load`
touch: actor- and learner-side model weights, optimizer state, the
scheduler object's state (if a scheduler has been constructed), the
deferred `_scheduler_state_dict`, the step counter and the
`disable_checkpoint` flag. -/
structure MonobeastState where
  actor_model : Nat
  learner_model : Nat
  optimizer : Nat
  scheduler : Option Nat
  scheduler_state_dict : Option Nat
  last_timestep_returned : Nat
  disable_checkpoint : Bool
deriving DecidableEq

/-- `Monobeast.save` (monobeast.py:506-532): a no-op under
`disable_checkpoint`; otherwise the existing blob (if any) is copied to
`model_bak.tar`, the checkpoint dict is written with the scheduler entry
included only when `self._scheduler is not None`, and the metadata record
is written. -/
def save (m : MonobeastState) (d : SaveDir) : SaveDir :=
  if m.disable_checkpoint then d
  else
    { modelTar := some
        { model_state_dict := m.actor_model
          optimizer_state_dict := m.optimizer
          scheduler_state_dict := m.scheduler }
      modelBakTar := if d.modelTar.isSome then d.modelTar else d.modelBakTar
      metadataJson := some { last_timestep_returned := m.last_timestep_returned } }

/-- Metadata half of `Monobeast.load` (monobeast.py:550-557): restore the
step counter when the metadata file exists. -/
def loadMetadata (m : MonobeastState) (d : SaveDir) : MonobeastState :=
  match d.metadataJson with
  | some md => { m with last_timestep_returned := md.last_timestep_returned }
  | none => m

/-- `Monobeast.load` (monobeast.py:534-557): when `model.tar` exists, both
model copies and the optimizer are restored from it and then
`checkpoint["scheduler_state_dict"]` is read unconditionally
(monobeast.py:544) — a checkpoint written without a scheduler raises
`KeyError` there; when the blob is absent the run starts fresh.  Metadata
is loaded afterwards. -/
def load (m : MonobeastState) (d : SaveDir) : Except String MonobeastState :=
  match d.modelTar with
  | some ckpt =>
    match ckpt.scheduler_state_dict with
    | none => Except.error "KeyError: scheduler_state_dict"
    | some sd =>
      Except.ok (loadMetadata
        { m with
          actor_model := ckpt.model_state_dict
          learner_model := ckpt.model_state_dict
          optimizer := ckpt.optimizer_state_dict
          scheduler_state_dict := some sd } d)
  | none => Except.ok (loadMetadata m d)

/-- C2 counterexample instance: a trained `Monobeast` with checkpointing
enabled and no scheduler configured (`self._scheduler is None`). -/
def noSchedState : MonobeastState :=
  { actor_model := 3, learner_model := 3, optimizer := 4, scheduler := none
    scheduler_state_dict := none, last_timestep_returned := 17
    disable_checkpoint := false }

/-- The same instance but with a configured scheduler whose state dict is
`9`. -/
def withSchedState : MonobeastState :=
  { noSchedState with scheduler := some 9 }

/-- A fresh instance constructed with the same configuration: weights and
optimizer are newly initialised, the step counter is 0. -/
def freshState : MonobeastState :=
  { actor_model := 50, learner_model := 51, optimizer := 52, scheduler := none
    scheduler_state_dict := none, last_timestep_returned := 0
    disable_checkpoint := false }

/-! ### Monobeast.get_batch (monobeast.py:287-318)

The buffers dict maps each field name to one tensor per slot
(monobeast.py:420-441); tensors are abstracted to `Nat` payloads.  The
initial recurrent states live in `initial_agent_state_buffers`, one per
slot. -/

/-- The keys of the rollout buffers dict, from
`Monobeast.create_buffer_specs` (monobeast.py:420-433). -/
inductive BufKey
  | frame
  | reward
  | done
  | episode_return
  | episode_step
  | policy_logits
  | baseline
  | last_action
  | action
deriving DecidableEq

/-- Queue state seen by `get_batch` plus the per-slot initial recurrent
states (`initial_agent_state_buffers`, written by actors at
monobeast.py:229-230 and read by the deferred concatenation at
monobeast.py:304-316). -/
structure BatchState where
  freeQ : List Nat
  fullQ : List Nat
  stateBufs : Nat → Nat

/-- The dequeue loop of `get_batch` (monobeast.py:299), executed under the
shared batch lock: the first `batch_size` indices of the full queue are
drained in one atomic critical section. -/
def gbDrain (batch_size : Nat) (s : BatchState) : List Nat × BatchState :=
  (s.fullQ.take batch_size, { s with fullQ := s.fullQ.drop batch_size })

/-- The eager per-field stacking of `get_batch` (monobeast.py:301-303):
`torch.stack([buffers[key][m] for m in indices])` for every key. -/
def gbStack (buffers : BufKey → Nat → Nat) (indices : List Nat) : BufKey → List Nat :=
  fun key => indices.map (buffers key)

/-- The release loop of `get_batch` (monobeast.py:309-310): every drained
index is put back on the free queue. -/
def gbRelease (indices : List Nat) (s : BatchState) : BatchState :=
  { s with freeQ := s.freeQ ++ indices }

/-- Reading the initial recurrent states of the drained slots. -/
def gbGather (indices : List Nat) (stateBufs : Nat → Nat) : List Nat :=
  indices.map stateBufs

/-- Execution of `Monobeast.get_batch` (monobeast.py:287-318) as the
sequence of its atomic effects, in source order: drain under the batch
lock (line 299), eager per-field stacking (lines 301-303), free-queue
release (lines 309-310), and only then the materialisation of the initial
recurrent states (lines 313-316).  The `initial_agent_state` generator
expression created at lines 304-307 evaluates only its outermost iterable
eagerly; the `torch.cat` calls run when `tuple(...)` forces the generator
at line 314 — after the indices were already returned to the free queue.
`lateWrite` models any overwrite of `initial_agent_state_buffers` by an
actor that re-acquires a freed index in that window (monobeast.py:229-230);
`lateWrite = id` is the interference-free run.  Returns the stacked batch,
the gathered initial states and the final queue/buffer state. -/
def get_batchExec (batch_size : Nat) (buffers : BufKey → Nat → Nat) (s : BatchState)
    (lateWrite : (Nat → Nat) → Nat → Nat) :
    (BufKey → List Nat) × List Nat × BatchState :=
  let drained := gbDrain batch_size s
  let batch := gbStack buffers drained.1
  let s2 := gbRelease drained.1 drained.2
  let s3 : BatchState := { s2 with stateBufs := lateWrite s2.stateBufs }
  let states := gbGather drained.1 s3.stateBufs
  (batch, states, s3)

/-- Initial state of the C3 counterexample: slot 0 is full, its saved
initial recurrent state is `5`. -/
def gbCexInit : BatchState := { freeQ := [], fullQ := [0], stateBufs := fun _ => 5 }

/-- Interfering actor of the C3 counterexample: having re-acquired slot 0
from the free queue, it overwrites that slot's initial state with `9`
before the generator expression is forced. -/
def gbCexWrite : (Nat → Nat) → Nat → Nat :=
  fun f j => if j = 0 then 9 else f j

/-- Arbitrary buffer contents for the C3 counterexample. -/
def gbCexBuffers : BufKey → Nat → Nat := fun _ _ => 0

/-! ### Learner thread lifecycle (monobeast.py:50-72, 621-672, 727-743)

One learner thread runs `batch_and_learn`.  Its `LearnerThreadState` is
read and written for control only inside the `with thread_state.lock`
block at the top of each `while True` iteration (monobeast.py:629-634);
the loop body — `get_batch`, `learn` (loss, backward, optimizer step) and
the stats block — never looks at it.  The orchestrator (and `cleanup`)
sets `STOP_REQUESTED` asynchronously (monobeast.py:735-737, 460). -/

/-- The four lifecycle states of `LearnerThreadState`
(monobeast.py:50-51). -/
inductive LState
  | starting
  | running
  | stopRequested
  | stopped
deriving DecidableEq

/-- Thread-visible state of one learner thread: lifecycle state, program
position (`none` = at the top-of-loop check, `some k` = `k` remaining
atomic actions of the current iteration body), and whether
`batch_and_learn` has returned. -/
structure ThreadState where
  ls : LState
  pc : Option Nat
  returned : Bool
deriving DecidableEq

/-- Transitions of one learner thread together with the orchestrator's
stop requests.  `iterLen` is the number of atomic actions in one loop body
(batch assembly, loss/backward/optimizer step, stats accumulation).
`observeStop`/`beginBody` are the top-of-loop check under
`thread_state.lock` (monobeast.py:629-634): on `STOP_REQUESTED` the thread
writes `STOPPED` and returns; otherwise it writes `RUNNING` and starts the
body.  `bodyStep`/`finishBody` advance the body without reading the
lifecycle state.  `requestStop` is the orchestrator writing
`STOP_REQUESTED` at any moment to a not-yet-stopped thread
(monobeast.py:735-737). -/
inductive ThreadStep (iterLen : Nat) : ThreadState → ThreadState → Prop
  | observeStop (s : ThreadState) (h1 : s.returned = false) (h2 : s.pc = none)
      (h3 : s.ls = LState.stopRequested) :
      ThreadStep iterLen s { s with ls := LState.stopped, returned := true }
  | beginBody (s : ThreadState) (h1 : s.returned = false) (h2 : s.pc = none)
      (h3 : s.ls ≠ LState.stopRequested) :
      ThreadStep iterLen s { s with ls := LState.running, pc := some iterLen }
  | bodyStep (s : ThreadState) (k : Nat) (h1 : s.returned = false) (h2 : s.pc = some (k + 1)) :
      ThreadStep iterLen s { s with pc := some k }
  | finishBody (s : ThreadState) (h1 : s.returned = false) (h2 : s.pc = some 0) :
      ThreadStep iterLen s { s with pc := none }
  | requestStop (s : ThreadState) (h : s.ls ≠ LState.stopped) :
      ThreadStep iterLen s { s with ls := LState.stopRequested }

/-! ### Statistics accumulation and the yield decision (monobeast.py:618-766)

`collected_stats` is appended to by each learner under `stats_lock`, in
the same critical section that advances `step` (monobeast.py:650-664).
Every `seconds_between_yields` the orchestrator deep-copies and clears it
under the lock (monobeast.py:688-690) and later — outside any lock —
yields the snapshot only when `step != last_timestep_returned`
(monobeast.py:727-766); otherwise the snapshot is dropped. -/

/-- Shared state of the stats pipeline: the global step counter,
`last_timestep_returned`, the live accumulator, the orchestrator's
snapshot in flight between the clear and the yield decision, the published
yields and the dropped snapshots. -/
structure OrchState where
  step : Nat
  lastReturned : Nat
  collected : List Nat
  stash : Option (List Nat)
  yielded : List (List Nat)
  discarded : List Nat
deriving DecidableEq

/-- State at the top of `Monobeast.train`'s yield loop
(monobeast.py:618): counters equal, accumulator empty. -/
def orchInit : OrchState :=
  { step := 0, lastReturned := 0, collected := [], stash := none, yielded := [], discarded := [] }

/-- Atomic transitions of the stats pipeline as the source interleaves
them.  `delta` is `T * B`, the step increment of one learner update.
`learnerUpdate` is the locked block at monobeast.py:650-664 (step advance
and stats append are one critical section).  `snapshotClear` is the locked
deep-copy-and-clear at monobeast.py:688-690.  `publishYield`/`skipYield`
are the decision at monobeast.py:727-766: the snapshot is yielded only
when `step` moved since the last yield, and is dropped otherwise.  Learner
updates may interleave between `snapshotClear` and the decision, as lines
692-726 run in between with no lock held. -/
inductive OrchStep (delta : Nat) : OrchState → OrchState → Prop
  | learnerUpdate (s : OrchState) (stat : Nat) :
      OrchStep delta s { s with step := s.step + delta, collected := s.collected ++ [stat] }
  | snapshotClear (s : OrchState) (h : s.stash = none) :
      OrchStep delta s { s with stash := some s.collected, collected := [] }
  | publishYield (s : OrchState) (xs : List Nat) (h1 : s.stash = some xs)
      (h2 : s.step ≠ s.lastReturned) :
      OrchStep delta s
        { s with stash := none, lastReturned := s.step, yielded := s.yielded ++ [xs] }
  | skipYield (s : OrchState) (xs : List Nat) (h1 : s.stash = some xs)
      (h2 : s.step = s.lastReturned) :
      OrchStep delta s { s with stash := none, discarded := s.discarded ++ xs }

/-- The stats pipeline with the orchestrator's snapshot-and-decide fused
into one atomic interval step, i.e. the special case in which no learner
update lands between the clear (monobeast.py:688-690) and the yield
decision (monobeast.py:727-728). -/
inductive OrchAtomicStep (delta : Nat) : OrchState → OrchState → Prop
  | learnerUpdate (s : OrchState) (stat : Nat) :
      OrchAtomicStep delta s
        { s with step := s.step + delta, collected := s.collected ++ [stat] }
  | intervalYield (s : OrchState) (h : s.step ≠ s.lastReturned) :
      OrchAtomicStep delta s
        { s with collected := [], lastReturned := s.step, yielded := s.yielded ++ [s.collected] }
  | intervalSkip (s : OrchState) (h : s.step = s.lastReturned) :
      OrchAtomicStep delta s
        { s with collected := [], discarded := s.discarded ++ s.collected }

/-- States of the C8 counterexample trace (delta = 1): the orchestrator
snapshots an empty accumulator, a learner update lands before the yield
decision, the (empty) snapshot is yielded, and the next interval clears
and drops the update's statistic because the step counter no longer
differs from `last_timestep_returned`. -/
def orchCex1 : OrchState :=
  { step := 0, lastReturned := 0, collected := [], stash := some [], yielded := [], discarded := [] }

/-- Second state of the C8 counterexample trace: learner update appended
statistic 7 and advanced the step counter while the snapshot was in
flight. -/
def orchCex2 : OrchState :=
  { step := 1, lastReturned := 0, collected := [7], stash := some [], yielded := [], discarded := [] }

/-- Third state of the C8 counterexample trace: the empty snapshot was
yielded and `last_timestep_returned` caught up to `step`. -/
def orchCex3 : OrchState :=
  { step := 1, lastReturned := 1, collected := [7], stash := none, yielded := [[]], discarded := [] }

/-- Fourth state of the C8 counterexample trace: the next interval
snapshotted and cleared the accumulator holding statistic 7. -/
def orchCex4 : OrchState :=
  { step := 1, lastReturned := 1, collected := [], stash := some [7], yielded := [[]], discarded := [] }

/-- Final state of the C8 counterexample trace: the step counter did not
advance during the interval, so the snapshot holding statistic 7 is
dropped without ever being yielded. -/
def orchCex5 : OrchState :=
  { step := 1, lastReturned := 1, collected := [], stash := none, yielded := [[]], discarded := [7] }

/-! ## Theorems -/

/-- Helper: the head of the n-step-return list of a suffix is that suffix's
n-step return. -/
theorem nstepList_headD (steps : List VStep) (boot : ℚ) :
    (nstepList steps boot).headD boot = nstepReturn steps boot := by
  cases steps <;> simp [nstepList, nstepReturn]

/-- Helper: with all importance ratios and trace coefficients equal to 1,
the V-trace targets coincide with the n-step bootstrapped returns. -/
theorem vsList_eq_nstepList (steps : List VStep) (boot : ℚ)
    (h : ∀ s ∈ steps, s.rho = 1 ∧ s.c = 1) :
    vsList steps boot = nstepList steps boot := by
  induction steps with
  | nil => rfl
  | cons s rest ih =>
    obtain ⟨hr, hc⟩ := h s (List.mem_cons_self s rest)
    have ih2 := ih (fun x hx => h x (List.mem_cons_of_mem s hx))
    simp only [vsList, nstepList]
    rw [ih2, nstepList_headD]
    congr 1
    rw [hr, hc]
    simp only [nstepReturn]
    ring

/-- C5 counterexample: the claim says constructing with
`num_buffers >= num_actors` (and `num_buffers >= batch_size`) succeeds, but
`Monobeast.setup` raises the num_actors `ValueError` for
`num_buffers = num_actors = 2`, `batch_size = 1`, although `2 ≥ 2` and
`2 ≥ 1`. -/
theorem setup_equal_buffers_counterexample :
    setupCheck (some 2) 2 1 = Except.error "num_buffers should be larger than num_actors"
    ∧ 2 ≤ 2 ∧ 1 ≤ 2 :=
  ⟨rfl, le_refl 2, by omega⟩

/-- C5 (corrected): construction succeeds exactly when
`num_actors < num_buffers` and `batch_size ≤ num_buffers`; the check is
strict in `num_actors`, so `num_buffers = num_actors` is rejected with the
num_actors configuration error, and `num_buffers < batch_size` (with the
actor bound satisfied) is rejected with the batch_size configuration
error.  No other buffer-count configuration is rejected. -/
theorem setup_check_amended (nb na bs : Nat) :
    (setupCheck (some nb) na bs = Except.ok nb ↔ na < nb ∧ bs ≤ nb)
    ∧ (nb ≤ na →
        setupCheck (some nb) na bs = Except.error "num_buffers should be larger than num_actors")
    ∧ (na < nb → nb < bs →
        setupCheck (some nb) na bs = Except.error "num_buffers should be larger than batch_size") := by
  unfold setupCheck resolveNumBuffers
  simp only [Option.getD_some]
  split_ifs with h1 h2
  · exact ⟨⟨fun h => by simp at h, fun h => absurd h.1 (by omega)⟩,
      fun _ => rfl, fun h _ => absurd h (by omega)⟩
  · exact ⟨⟨fun h => by simp at h, fun h => absurd h2 (by omega)⟩,
      fun h => absurd h (by omega), fun _ _ => rfl⟩
  · exact ⟨⟨fun _ => by omega, fun _ => rfl⟩,
      fun h => absurd h (by omega), fun _ h => absurd h h2⟩

/-- Witness for `setup_check_amended` at `num_buffers = 4`,
`num_actors = 2`, `batch_size = 3`. -/
theorem setup_check_amended_witness : setupCheck (some 4) 2 3 = Except.ok 4 :=
  (setup_check_amended 4 2 3).1.mpr (by decide)

/-- C10 (confirmed): `compute_loss` produces a clipped-rewards value exactly
for `reward_clipping` in `\x7b"abs_one", "none"\x7d`: `"abs_one"` clamps every
reward into `[-1, 1]`, `"none"` passes the rewards through unchanged, and
any other mode raises (the `clipped_rewards` local is never bound). -/
theorem reward_clipping_totality (mode : String) (rewards : List ℚ) :
    (exOk (clippedRewardsOf mode rewards) = true ↔ (mode = "abs_one" ∨ mode = "none"))
    ∧ clippedRewardsOf "abs_one" rewards = Except.ok (rewards.map (fun r => min (max r (-1)) 1))
    ∧ clippedRewardsOf "none" rewards = Except.ok rewards
    ∧ (rewards.map (fun r => min (max r (-1)) 1)).all
        (fun x => decide (-1 ≤ x) && decide (x ≤ 1)) = true := by
  refine ⟨?_, ?_, ?_, ?_⟩
  · unfold clippedRewardsOf
    split_ifs with h1 h2
    · simp [exOk, h1]
    · simp [exOk, h2]
    · simp [exOk, h1, h2]
  · simp [clippedRewardsOf]
  · simp [clippedRewardsOf]
  · rw [List.all_eq_true]
    intro x hx
    obtain ⟨r, _, rfl⟩ := List.mem_map.mp hx
    simp only [Bool.and_eq_true, decide_eq_true_eq]
    constructor
    · exact le_min (le_max_right r (-1)) (by norm_num)
    · exact min_le_right _ 1

/-- Witness for `reward_clipping_totality` on the `"none"` branch. -/
theorem reward_clipping_totality_witness :
    clippedRewardsOf "none" [(5 : ℚ)] = Except.ok [(5 : ℚ)] :=
  (reward_clipping_totality "none" [(5 : ℚ)]).2.2.1

/-- C9 (confirmed): the telemetry sink has capacity one with overwrite
semantics: publishing two episode snapshots with no consumption in between
leaves exactly the second snapshot, that is what a consumer then reads
(emptying the sink), and a publish always lands its snapshot (its `put`
runs on an emptied slot; its only wait is the one-second `get` timeout). -/
theorem video_sink_overwrite (sink : Option (List Nat)) (v1 v2 : List Nat) :
    publishVideo (publishVideo sink v1) v2 = some v2
    ∧ consumeVideo (publishVideo (publishVideo sink v1) v2) = (some v2, none)
    ∧ (publishVideo sink v2).isSome = true := by
  cases sink <;> exact ⟨rfl, rfl, rfl⟩

/-- C6 (confirmed): the discount vector passed to the V-trace call equals
the configured discount factor at every timestep whose done flag is false
and exactly 0 where it is true; and a timestep with discount 0 has a
V-trace target `vs_t = V(x_t) + rho_t * (r_t - V(x_t))`, which mentions
neither `vs_(t+1)` nor anything after timestep t — no bootstrap across the
episode boundary. -/
theorem discount_zero_on_done (done : List Bool) (discounting : ℚ) (s : VStep)
    (rest : List VStep) (boot : ℚ) (hg : s.gamma = 0) :
    discountsOf done discounting = done.map (fun d => if d then 0 else discounting)
    ∧ (vsList (s :: rest) boot).headD 0 = s.V + s.rho * (s.r - s.V) := by
  constructor
  · have h : (fun d : Bool => (if d then (0 : ℚ) else 1) * discounting)
        = (fun d : Bool => if d then (0 : ℚ) else discounting) := by
      funext d
      cases d <;> simp
    rw [discountsOf, h]
  · simp only [vsList, List.headD_cons]
    rw [hg]
    ring

/-- Witness for `discount_zero_on_done`: a done flag at the first of two
timesteps, discount factor 3, and a concrete zero-discount step. -/
theorem discount_zero_on_done_witness :
    discountsOf [true, false] 3 = [true, false].map (fun d => if d then 0 else 3)
    ∧ (vsList ([⟨1, 1, 0, 2, 5⟩] : List VStep) 7).headD 0 = 5 + 1 * (2 - 5) :=
  discount_zero_on_done [true, false] 3 ⟨1, 1, 0, 2, 5⟩ [] 7 rfl

/-- C7 (confirmed): on an on-policy batch — behavior-policy and
target-policy outputs identical, so each action's probability is the same
positive number under both — every clipped importance ratio `rho_t` and
every trace coefficient `c_t` equals 1, and the V-trace targets equal the
standard n-step bootstrapped returns over the remaining horizon at every
timestep. -/
theorem vtrace_on_policy_nstep (rows : List PolicyRow) (boot : ℚ)
    (hOn : ∀ row ∈ rows, row.pb = row.pt ∧ 0 < row.pb) :
    (mkSteps rows).map VStep.rho = rows.map (fun _ => 1)
    ∧ (mkSteps rows).map VStep.c = rows.map (fun _ => 1)
    ∧ vsList (mkSteps rows) boot = nstepList (mkSteps rows) boot := by
  have hone : ∀ row ∈ rows, importanceRho row.pb row.pt = 1 := by
    intro row hrow
    obtain ⟨heq, hpos⟩ := hOn row hrow
    unfold importanceRho rhoBarDefault
    rw [← heq, div_self (ne_of_gt hpos), min_self]
  have hsteps : ∀ s ∈ mkSteps rows, s.rho = 1 ∧ s.c = 1 := by
    intro s hs
    obtain ⟨row, hrow, rfl⟩ := List.mem_map.mp hs
    refine ⟨hone row hrow, ?_⟩
    show traceC (importanceRho row.pb row.pt) = 1
    rw [hone row hrow]
    unfold traceC cBarDefault
    exact min_self 1
  refine ⟨?_, ?_, vsList_eq_nstepList _ _ hsteps⟩
  · unfold mkSteps
    rw [List.map_map]
    exact List.map_congr_left (fun row hrow => hone row hrow)
  · unfold mkSteps
    rw [List.map_map]
    refine List.map_congr_left (fun row hrow => ?_)
    show traceC (importanceRho row.pb row.pt) = 1
    rw [hone row hrow]
    unfold traceC cBarDefault
    exact min_self 1

/-- Witness for `vtrace_on_policy_nstep` on a one-timestep on-policy
batch. -/
theorem vtrace_on_policy_nstep_witness :
    (mkSteps [⟨1, 1, 1, 2, 5⟩]).map VStep.rho = ([⟨1, 1, 1, 2, 5⟩] : List PolicyRow).map (fun _ => 1)
    ∧ (mkSteps [⟨1, 1, 1, 2, 5⟩]).map VStep.c = ([⟨1, 1, 1, 2, 5⟩] : List PolicyRow).map (fun _ => 1)
    ∧ vsList (mkSteps [⟨1, 1, 1, 2, 5⟩]) 3 = nstepList (mkSteps [⟨1, 1, 1, 2, 5⟩]) 3 :=
  vtrace_on_policy_nstep [⟨1, 1, 1, 2, 5⟩] 3 (by decide)

/-- C1 counterexample: with `num_buffers = 2`, an actor acquires slot 0 and
then the orchestrator performs the pause-time drain-and-refill; the refill
puts every index into the free queue while the actor still holds slot 0,
so the reachable state `poolCexEnd` accounts for 3 slot indices, not 2
(and slot 0 is now both free and checked out). -/
theorem pool_invariant_counterexample :
    Relation.ReflTransGen (PoolStep 2) (poolInit 2) poolCexEnd
    ∧ poolCount poolCexEnd = 3
    ∧ (poolCount poolCexEnd == 2) = false := by
  refine ⟨?_, rfl, rfl⟩
  have h1 : PoolStep 2 (poolInit 2) poolCexMid :=
    PoolStep.op _ _ (PoolOp.actorAcquire (poolInit 2) 0 [1] rfl)
  have h2 : PoolStep 2 poolCexMid poolCexEnd :=
    PoolStep.pause poolCexMid
  exact Relation.ReflTransGen.tail (Relation.ReflTransGen.single h1) h2

/-- C1 (corrected): every steady-state pool operation — actor acquire,
actor publish, batch drain, batch release — preserves the total count of
slot indices, but the orchestrator's pause-time drain-and-refill does not:
it resets the queues to all `num_buffers` indices free, so the count
afterwards is `num_buffers` plus the number of indices checked out by
actors or a batch assembler, equal to `num_buffers` only when nothing is
checked out. -/
theorem pool_invariant_amended (num_buffers : Nat) (s t : PoolState) :
    (PoolOp s t → poolCount t = poolCount s)
    ∧ poolCount (drainRefill num_buffers s)
        = num_buffers + (s.actorHeld.length + s.learnerHeld.length) := by
  constructor
  · intro h
    cases h with
    | actorAcquire i rest hfree =>
      simp only [poolCount, List.length_append, List.length_cons, List.length_nil, hfree]
      omega
    | actorPublish i hmem =>
      have he := List.length_erase_add_one hmem
      simp only [poolCount, List.length_append, List.length_cons, List.length_nil]
      omega
    | batchDrain n hn =>
      simp only [poolCount, List.length_append, List.length_take, List.length_drop]
      omega
    | batchRelease =>
      simp only [poolCount, List.length_append, List.length_nil]
      omega
  · simp only [poolCount, drainRefill, List.length_range, List.length_nil]
    omega

/-- Witness for `pool_invariant_amended`: an actor acquire on a one-slot
free queue preserves the count, and the drain-and-refill of an all-free
two-slot pool restores the count 2. -/
theorem pool_invariant_amended_witness :
    poolCount { freeQ := [], fullQ := [], actorHeld := [0], learnerHeld := [] }
      = poolCount { freeQ := [0], fullQ := [], actorHeld := [], learnerHeld := [] }
    ∧ poolCount (drainRefill 2 { freeQ := [0], fullQ := [], actorHeld := [], learnerHeld := [] })
      = 2 + (0 + 0) :=
  ⟨(pool_invariant_amended 2 ⟨[0], [], [], []⟩ ⟨[], [], [0], []⟩).1
      (PoolOp.actorAcquire ⟨[0], [], [], []⟩ 0 [] rfl),
    (pool_invariant_amended 2 ⟨[0], [], [], []⟩ ⟨[], [], [0], []⟩).2⟩

/-- C2 (code_bug): `Monobeast.save` writes the `scheduler_state_dict` key
only when a scheduler object exists (monobeast.py:523-524), but
`Monobeast.load` reads `checkpoint["scheduler_state_dict"]`
unconditionally (monobeast.py:544), so save-then-load on an instance
without a configured scheduler raises `KeyError` instead of succeeding;
with a scheduler configured the round trip restores both model copies, the
optimizer state and `last_timestep_returned` as claimed. -/
theorem save_load_scheduler_keyerror :
    load freshState (save noSchedState emptyDir)
      = Except.error "KeyError: scheduler_state_dict"
    ∧ load freshState (save withSchedState emptyDir)
      = Except.ok { actor_model := 3, learner_model := 3, optimizer := 4, scheduler := none,
                    scheduler_state_dict := some 9, last_timestep_returned := 17,
                    disable_checkpoint := false }
    ∧ noSchedState.scheduler = none ∧ noSchedState.disable_checkpoint = false :=
  ⟨rfl, rfl, rfl, rfl⟩

/-- C3 counterexample: the claim has `get_batch` return the drained indices
to the free queue only after gathering each drained slot's saved initial
recurrent state, but the gather is deferred past the release: the
`initial_agent_state` generator expression (monobeast.py:304-307) is only
forced at monobeast.py:314, after the `free_queue.put` loop
(monobeast.py:309-310).  Concretely, slot 0 holds saved state 5 at drain
time, the call releases slot 0 to the free queue, an actor re-acquires it
and overwrites the state buffer with 9, and the call then returns gathered
state 9, not the saved 5. -/
theorem get_batch_gather_after_release_counterexample :
    (get_batchExec 1 gbCexBuffers gbCexInit gbCexWrite).2.1 = [9]
    ∧ gbGather (gbDrain 1 gbCexInit).1 gbCexInit.stateBufs = [5]
    ∧ (get_batchExec 1 gbCexBuffers gbCexInit gbCexWrite).2.2.freeQ = [0]
    ∧ (((9 : Nat) == 5) = false) :=
  ⟨rfl, rfl, rfl, rfl⟩

/-- C3 (corrected): `get_batch` with batch size n drains exactly the first
n indices of the full queue in one critical section under the shared batch
lock (two lock-serialized drains take contiguous disjoint prefixes whose
concatenation is the first n + n2 indices), and before the call returns it
enqueues exactly those n indices back onto the free queue; the per-field
stacking happens before the release, but the gathering of the initial
recurrent states is deferred until after the release, reading the state
buffers as they stand then (equal to the saved states only when no
interleaved actor write occurs, `lateWrite = id`). -/
theorem get_batch_amended (batch_size bs2 : Nat) (buffers : BufKey → Nat → Nat)
    (s : BatchState) (lateWrite : (Nat → Nat) → Nat → Nat)
    (h : batch_size ≤ s.fullQ.length) :
    (gbDrain batch_size s).1 = s.fullQ.take batch_size
    ∧ (gbDrain batch_size s).1.length = batch_size
    ∧ (get_batchExec batch_size buffers s lateWrite).2.2.freeQ
        = s.freeQ ++ s.fullQ.take batch_size
    ∧ (get_batchExec batch_size buffers s lateWrite).2.2.fullQ = s.fullQ.drop batch_size
    ∧ (∀ key, (get_batchExec batch_size buffers s lateWrite).1 key
        = (s.fullQ.take batch_size).map (buffers key))
    ∧ (get_batchExec batch_size buffers s lateWrite).2.1
        = (s.fullQ.take batch_size).map (lateWrite s.stateBufs)
    ∧ (gbDrain bs2 (gbDrain batch_size s).2).1 = (s.fullQ.drop batch_size).take bs2
    ∧ (gbDrain batch_size s).1 ++ (gbDrain bs2 (gbDrain batch_size s).2).1
        = s.fullQ.take (batch_size + bs2) := by
  refine ⟨rfl, ?_, rfl, rfl, fun key => rfl, rfl, rfl, ?_⟩
  · simp only [gbDrain, List.length_take]
    omega
  · simp only [gbDrain]
    exact (List.take_add s.fullQ batch_size bs2).symm

/-- Witness for `get_batch_amended` at the concrete one-slot pool of the
counterexample. -/
theorem get_batch_amended_witness : (gbDrain 1 gbCexInit).1.length = 1 :=
  (get_batch_amended 1 1 gbCexBuffers gbCexInit gbCexWrite (by decide)).2.1

/-- C4 (confirmed): a learner thread's lifecycle state is acted on only at
the top-of-loop check: the sole transition that returns the thread is the
check observing `STOP_REQUESTED` with the loop body not in progress, and
it writes `STOPPED` there; moreover, from any point inside the loop body,
every run that ends with the thread returned passes first through a state
where the current iteration has completed (program position back at the
top, thread not yet returned) — a stop request issued mid-update never
interrupts that update. -/
theorem learner_stop_only_at_loop_top (iterLen : Nat) :
    (∀ s t : ThreadState, ThreadStep iterLen s t → t.returned = true → s.returned = false →
      s.pc = none ∧ s.ls = LState.stopRequested ∧ t.ls = LState.stopped)
    ∧ (∀ s t : ThreadState, Relation.ReflTransGen (ThreadStep iterLen) s t →
        s.returned = false → s.pc ≠ none → t.returned = true →
        ∃ u : ThreadState, Relation.ReflTransGen (ThreadStep iterLen) s u
          ∧ Relation.ReflTransGen (ThreadStep iterLen) u t
          ∧ u.pc = none ∧ u.returned = false) := by
  constructor
  · intro s t hst hret hsret
    cases hst with
    | observeStop h1 h2 h3 => exact ⟨h2, h3, rfl⟩
    | beginBody h1 h2 h3 => rw [h1] at hret; exact Bool.noConfusion hret
    | bodyStep k h1 h2 => rw [h1] at hret; exact Bool.noConfusion hret
    | finishBody h1 h2 => rw [h1] at hret; exact Bool.noConfusion hret
    | requestStop hs => rw [hsret] at hret; exact Bool.noConfusion hret
  · intro s t hreach
    induction hreach using Relation.ReflTransGen.head_induction_on with
    | refl =>
      intro h1 _ h3
      rw [h1] at h3
      exact Bool.noConfusion h3
    | head hstep hrest ih =>
      intro h1 h2 h3
      cases hstep with
      | observeStop hs1 hs2 hs3 => exact absurd hs2 h2
      | beginBody hs1 hs2 hs3 => exact absurd hs2 h2
      | bodyStep k hs1 hs2 =>
        obtain ⟨u, hu1, hu2, hu3, hu4⟩ := ih h1 (Option.some_ne_none k) h3
        exact ⟨u, Relation.ReflTransGen.head (ThreadStep.bodyStep _ k hs1 hs2) hu1, hu2, hu3, hu4⟩
      | finishBody hs1 hs2 =>
        exact ⟨_, Relation.ReflTransGen.single (ThreadStep.finishBody _ hs1 hs2), hrest, rfl, hs1⟩
      | requestStop hs =>
        obtain ⟨u, hu1, hu2, hu3, hu4⟩ := ih h1 h2 h3
        exact ⟨u, Relation.ReflTransGen.head (ThreadStep.requestStop _ hs) hu1, hu2, hu3, hu4⟩

/-- Witness for `learner_stop_only_at_loop_top`: with one body action per
iteration, a thread that receives a stop request mid-body finishes the
body, reaches the top-of-loop check, and only then stops and returns. -/
theorem learner_stop_only_at_loop_top_witness :
    ((none : Option Nat) = none ∧ LState.stopRequested = LState.stopRequested
      ∧ LState.stopped = LState.stopped)
    ∧ ∃ u : ThreadState,
        Relation.ReflTransGen (ThreadStep 1) ⟨LState.stopRequested, some 1, false⟩ u
        ∧ Relation.ReflTransGen (ThreadStep 1) u ⟨LState.stopped, none, true⟩
        ∧ u.pc = none ∧ u.returned = false := by
  constructor
  · exact (learner_stop_only_at_loop_top 1).1 ⟨LState.stopRequested, none, false⟩ _
      (ThreadStep.observeStop _ rfl rfl rfl) rfl rfl
  · refine (learner_stop_only_at_loop_top 1).2 ⟨LState.stopRequested, some 1, false⟩
      ⟨LState.stopped, none, true⟩ ?_ rfl (Option.some_ne_none 1) rfl
    refine Relation.ReflTransGen.head (ThreadStep.bodyStep ⟨LState.stopRequested, some 1, false⟩ 0 rfl rfl) ?_
    refine Relation.ReflTransGen.head (ThreadStep.finishBody ⟨LState.stopRequested, some 0, false⟩ rfl rfl) ?_
    exact Relation.ReflTransGen.single (ThreadStep.observeStop ⟨LState.stopRequested, none, false⟩ rfl rfl rfl)

/-- C8 counterexample: a learner update that lands between the
orchestrator's snapshot-and-clear and its yield decision is yielded in
neither that interval (the in-flight snapshot predates it) nor the next
(the step counter no longer differs from `last_timestep_returned`, so the
next interval's snapshot — which carries it — is dropped): statistic 7
reaches `discarded` while the only published yield is the empty one. -/
theorem stats_discard_counterexample :
    Relation.ReflTransGen (OrchStep 1) orchInit orchCex5
    ∧ orchCex5.discarded = [7]
    ∧ orchCex5.yielded = [[]] := by
  refine ⟨?_, rfl, rfl⟩
  refine Relation.ReflTransGen.head (OrchStep.snapshotClear orchInit rfl) ?_
  refine Relation.ReflTransGen.head (OrchStep.learnerUpdate orchCex1 7) ?_
  refine Relation.ReflTransGen.head (OrchStep.publishYield orchCex2 [] rfl (by decide)) ?_
  refine Relation.ReflTransGen.head (OrchStep.snapshotClear orchCex3 rfl) ?_
  exact Relation.ReflTransGen.single (OrchStep.skipYield orchCex4 [7] rfl rfl)

/-- C8 (corrected): the accumulator is snapshotted and cleared at every
wall-clock interval whether or not a yield follows; because learner
updates append statistics in the same critical section that advances the
step counter, an interval that skips the yield finds the accumulator
empty — provided no learner update interleaves between the orchestrator's
snapshot-and-clear and its yield decision.  Under that atomicity (the
fused interval steps of `OrchAtomicStep`) nothing is ever discarded
without being yielded, in every reachable state. -/
theorem stats_no_loss_amended (delta : Nat) (s : OrchState) (hd : 0 < delta)
    (hreach : Relation.ReflTransGen (OrchAtomicStep delta) orchInit s) :
    s.discarded = [] ∧ s.lastReturned ≤ s.step := by
  have key : s.discarded = [] ∧ s.lastReturned ≤ s.step
      ∧ (s.collected ≠ [] → s.lastReturned < s.step) := by
    induction hreach with
    | refl => exact ⟨rfl, le_refl 0, fun h => absurd rfl h⟩
    | @tail b c hab hbc ih =>
      obtain ⟨ih1, ih2, ih3⟩ := ih
      cases hbc with
      | learnerUpdate stat =>
        refine ⟨ih1, ?_, fun _ => ?_⟩
        · show b.lastReturned ≤ b.step + delta
          omega
        · show b.lastReturned < b.step + delta
          omega
      | intervalYield hne =>
        exact ⟨ih1, le_refl _, fun hc => absurd rfl hc⟩
      | intervalSkip heq =>
        have hcoll : b.collected = [] := by
          by_contra hc
          exact absurd heq (Nat.ne_of_lt (ih3 hc)).symm
        refine ⟨?_, ?_, fun hc => absurd rfl hc⟩
        · show b.discarded ++ b.collected = []
          rw [hcoll, ih1]
          rfl
        · exact ih2
  exact ⟨key.1, key.2.1⟩

/-- Witness for `stats_no_loss_amended` at the initial state. -/
theorem stats_no_loss_amended_witness :
    orchInit.discarded = [] ∧ orchInit.lastReturned ≤ orchInit.step :=
  stats_no_loss_amended 1 orchInit (by decide) Relation.ReflTransGen.refl
